import Mathlib

/-!
Verification of the named-timer registry in `src/timers.rs`.

Modelling choices:
* A `chrono::DateTime<Local>` instant is modelled as an `Int`, counting
  nanoseconds (the resolution at which `chrono` compares instants).
  Subtracting two instants yields a `chrono::Duration` whose
  `num_milliseconds()` truncates the nanosecond difference toward zero;
  this is `Int.tdiv (b - a) 1000000` (`Int.tdiv` is truncation toward zero,
  like Rust `i64` division).
* Each registry operation that reads the clock takes the current instant
  `now : Int` as an explicit parameter; all clock reads inside a single
  operation observe the same instant.
* The `HashMap<String, Timer>` is modelled as an association list with
  first-match lookup; `get_mut` followed by in-place mutation is modelled
  by replacing the first matching entry.
* Rust `i64` division panics when the divisor is zero; `checkedDiv`
  models that panic as `none`.
* Operations are written in state-passing style `Timers → ... → Int × Timers`
  so that the absence of writes in `rate`/`duration` is a provable fact
  rather than a convention.
-/

/-- One timer: `starttime` and `endtime` instants in nanoseconds,
mirroring `struct Timer { starttime: DateTime<Local>, endtime: DateTime<Local> }`. -/
structure Timer where
  starttime : Int
  endtime : Int
deriving DecidableEq, Repr

/-- Milliseconds between two instants, as computed by
`(b - a).num_milliseconds()` on a `chrono::Duration`: truncation toward zero. -/
def msBetween (a b : Int) : Int :=
  Int.tdiv (b - a) 1000000

/-- `Timer::new()`: both fields set to the same current instant. -/
def Timer.new (now : Int) : Timer :=
  { starttime := now, endtime := now }

/-- `Timer::end(&mut self)`: sets `endtime` to the current instant. -/
def Timer.endTimer (t : Timer) (now : Int) : Timer :=
  { t with endtime := now }

/-- `Timer::duration(&self) -> i64`: if `endtime == starttime` the timer
reads the clock and returns the elapsed milliseconds to `now`; otherwise
it returns the milliseconds from `starttime` to `endtime`. -/
def Timer.duration (t : Timer) (now : Int) : Int :=
  if t.endtime = t.starttime then
    msBetween t.starttime now
  else
    msBetween t.starttime t.endtime

/-- The registry: `pub struct Timers { pub timer: HashMap<String, Timer> }`,
the map modelled as an association list. -/
structure Timers where
  timer : List (String × Timer)
deriving DecidableEq, Repr

/-- Replace the first entry stored under `name` (models `get_mut` followed
by in-place mutation; entries other than the first match are untouched). -/
def updateEntry (name : String) (t : Timer) : List (String × Timer) → List (String × Timer)
  | [] => []
  | (k, v) :: rest =>
      if k = name then (k, t) :: rest else (k, v) :: updateEntry name t rest

/-- `Timers::new(timer_name)`: a registry holding exactly one fresh timer. -/
def Timers.new (timer_name : String) (now : Int) : Timers :=
  { timer := [(timer_name, Timer.new now)] }

/-- `Timers::default()`: an empty registry. -/
def Timers.default : Timers :=
  { timer := [] }

/-- `Timers::rate(&mut self, timer_name, qty) -> i64`: looks the timer up;
if present, divides `qty * 1000` by the timer's duration, substituting `1`
when that duration is `0`; otherwise returns `-1`. The receiver is never
written, so the returned state is the input state. -/
def Timers.rate (self : Timers) (timer_name : String) (qty : Int) (now : Int) : Int × Timers :=
  match self.timer.lookup timer_name with
  | some t =>
      let d : Int := if t.duration now = 0 then 1 else t.duration now
      (Int.tdiv (qty * 1000) d, self)
  | none => (-1, self)

/-- Rust `i64` division, which panics (modelled as `none`) when the divisor
is zero. -/
def checkedDiv (a b : Int) : Option Int :=
  if b = 0 then none else some (Int.tdiv a b)

/-- `Timers::rate` with the division checked: `none` marks the panic a zero
divisor would cause in Rust. -/
def Timers.rateChecked (self : Timers) (timer_name : String) (qty : Int) (now : Int) :
    Option Int :=
  match self.timer.lookup timer_name with
  | some t =>
      let d : Int := if t.duration now = 0 then 1 else t.duration now
      checkedDiv (qty * 1000) d
  | none => some (-1)

/-- `Timers::duration(&mut self, timer_name) -> i64`: the stored timer's
duration, or `-1` when the name is absent. The receiver is never written. -/
def Timers.duration (self : Timers) (timer_name : String) (now : Int) : Int × Timers :=
  match self.timer.lookup timer_name with
  | some t => (t.duration now, self)
  | none => (-1, self)

/-- `Timers::end(&mut self, timer_name) -> i64`: if present, ends the stored
timer in place and returns its duration; otherwise returns `-1` leaving the
registry untouched. -/
def Timers.endTimer (self : Timers) (timer_name : String) (now : Int) : Int × Timers :=
  match self.timer.lookup timer_name with
  | some t =>
      let t2 := t.endTimer now
      (t2.duration now, { timer := updateEntry timer_name t2 self.timer })
  | none => (-1, self)

/-- Modelled from the spec: `Timers::add` is invoked by the `TA!` macro but
its definition is not in the sources; per §4.2, `add(name)` "inserts a new
running Timer under `name`, overwriting any prior timer with that name",
with no return value. -/
def Timers.add (self : Timers) (timer_name : String) (now : Int) : Timers :=
  match self.timer.lookup timer_name with
  | some _ => { timer := updateEntry timer_name (Timer.new now) self.timer }
  | none => { timer := self.timer ++ [(timer_name, Timer.new now)] }

/-! Helper lemmas about the association-list map. -/

/-- Replacing the entry stored under a present `name` makes `lookup name`
return the replacement. -/
theorem lookup_updateEntry_self (name : String) (t : Timer) :
    ∀ l : List (String × Timer), ∀ t' : Timer, l.lookup name = some t' →
      ((updateEntry name t l).lookup name) = some t := by
  intro l
  induction l with
  | nil => intro t' h; simp [List.lookup] at h
  | cons p rest ih =>
      obtain ⟨k, v⟩ := p
      intro t' h
      by_cases hk : k = name
      · subst hk
        simp [updateEntry, List.lookup]
      · have hne : (name == k) = false := by
          simp [beq_iff_eq]
          intro hc; exact hk hc.symm
        simp [updateEntry, hk, List.lookup, hne] at h ⊢
        exact ih t' h

/-- Replacing an entry's timer does not change the list of stored names. -/
theorem keys_updateEntry (name : String) (t : Timer) :
    ∀ l : List (String × Timer),
      (updateEntry name t l).map Prod.fst = l.map Prod.fst := by
  intro l
  induction l with
  | nil => rfl
  | cons p rest ih =>
      obtain ⟨k, v⟩ := p
      by_cases hk : k = name
      · simp [updateEntry, hk]
      · simp [updateEntry, hk, ih]

/-- Registry `duration` on a present name returns the stored timer's
duration and the unchanged registry. -/
theorem duration_lookup (ts : Timers) (name : String) (t : Timer) (now : Int)
    (h : ts.timer.lookup name = some t) :
    ts.duration name now = (t.duration now, ts) := by
  simp [Timers.duration, h]

/-! Claim theorems. -/

/-- C1: for a timer stored under a present `name`, the registry's
`duration(name)` returns the elapsed milliseconds from the timer's start to
the current instant when `endtime == starttime` (never explicitly ended),
and the milliseconds from start to end otherwise. -/
theorem c1_duration_semantics (ts : Timers) (name : String) (t : Timer) (now : Int)
    (h : ts.timer.lookup name = some t) :
    (ts.duration name now).1 =
      if t.endtime = t.starttime then msBetween t.starttime now
      else msBetween t.starttime t.endtime := by
  simp [Timers.duration, h, Timer.duration]

/-- Witness for C1 at a concrete registry. -/
theorem c1_duration_semantics_witness :
    ((Timers.new "a" 0).duration "a" 3000000).1 =
      if (Timer.new 0).endtime = (Timer.new 0).starttime then
        msBetween (Timer.new 0).starttime 3000000
      else msBetween (Timer.new 0).starttime (Timer.new 0).endtime :=
  c1_duration_semantics (Timers.new "a" 0) "a" (Timer.new 0) 3000000 (by rfl)

/-- C2: for a present name, `rate(name, qty)` returns `qty * 1000` divided
(with truncation) by the effective duration — the registry's reported
duration if it is nonzero, `1` otherwise; for an absent name it returns
`-1`. -/
theorem c2_rate_formula (ts : Timers) (name : String) (qty now : Int) :
    (∀ t : Timer, ts.timer.lookup name = some t →
      (ts.rate name qty now).1 =
        Int.tdiv (qty * 1000)
          (if (ts.duration name now).1 = 0 then 1 else (ts.duration name now).1)) ∧
    (ts.timer.lookup name = none → (ts.rate name qty now).1 = -1) := by
  constructor
  · intro t h
    simp [Timers.rate, Timers.duration, h]
  · intro h
    simp [Timers.rate, h]

/-- Witness for C2 at a concrete registry. -/
theorem c2_rate_formula_witness :
    ((Timers.new "a" 0).rate "a" 7 3000000).1 =
      Int.tdiv (7 * 1000)
        (if ((Timers.new "a" 0).duration "a" 3000000).1 = 0 then 1
         else ((Timers.new "a" 0).duration "a" 3000000).1) :=
  (c2_rate_formula (Timers.new "a" 0) "a" 7 3000000).1 (Timer.new 0) (by rfl)

/-- C3: on an absent name, `duration`, `rate` and `end` all return `-1`
and leave the registry state exactly as it was. -/
theorem c3_absent_name_sentinel (ts : Timers) (name : String) (qty now : Int)
    (h : ts.timer.lookup name = none) :
    ts.duration name now = (-1, ts) ∧
    ts.rate name qty now = (-1, ts) ∧
    ts.endTimer name now = (-1, ts) := by
  refine ⟨?_, ?_, ?_⟩ <;> simp [Timers.duration, Timers.rate, Timers.endTimer, h]

/-- Witness for C3: the empty registry has no timer named `x`. -/
theorem c3_absent_name_sentinel_witness :
    Timers.default.duration "x" 5 = (-1, Timers.default) ∧
    Timers.default.rate "x" 9 5 = (-1, Timers.default) ∧
    Timers.default.endTimer "x" 5 = (-1, Timers.default) :=
  c3_absent_name_sentinel Timers.default "x" 9 5 (by rfl)

/-- C4 counterexample: ending a timer at the very instant it started leaves
`endtime == starttime`, so the timer still reads as running; a later
`duration(name)` (5 ms later here) returns 5, not the 0 that `end(name)`
returned, so the duration is not fixed by `end`. -/
theorem c4_counterexample :
    (((Timers.new "a" 0).endTimer "a" 0).2.duration "a" 5000000).1 ≠
      ((Timers.new "a" 0).endTimer "a" 0).1 := by
  decide

/-- C4 (amended): if `end(name)` happens at an instant distinct from the
stored timer's start instant, then `end(name)` returns the milliseconds from
start to that instant, and every subsequent `duration(name)` returns exactly
that fixed value, regardless of when it is called. -/
theorem c4_end_fixes_duration (ts : Timers) (name : String) (t : Timer) (now0 : Int)
    (h : ts.timer.lookup name = some t) (hne : now0 ≠ t.starttime) :
    (ts.endTimer name now0).1 = msBetween t.starttime now0 ∧
    ∀ now1 : Int,
      ((ts.endTimer name now0).2.duration name now1).1 = msBetween t.starttime now0 := by
  have hlook : ((updateEntry name (t.endTimer now0) ts.timer).lookup name) =
      some (t.endTimer now0) :=
    lookup_updateEntry_self name (t.endTimer now0) ts.timer t h
  have hstep : (ts.endTimer name now0).2 =
      { timer := updateEntry name (t.endTimer now0) ts.timer } := by
    simp [Timers.endTimer, h]
  constructor
  · simp [Timers.endTimer, h, Timer.endTimer, Timer.duration, hne]
  · intro now1
    rw [hstep,
      duration_lookup { timer := updateEntry name (t.endTimer now0) ts.timer }
        name (t.endTimer now0) now1 hlook]
    simp [Timer.endTimer, Timer.duration, hne]

/-- Witness for C4 (amended) at a concrete registry: end 7 ms after start,
query 2 ms after that. -/
theorem c4_end_fixes_duration_witness :
    (((Timers.new "a" 0).endTimer "a" 7000000).2.duration "a" 9000000).1 =
      msBetween (Timer.new 0).starttime 7000000 :=
  (c4_end_fixes_duration (Timers.new "a" 0) "a" (Timer.new 0) 7000000
    (by rfl) (by decide)).2 9000000

/-- C5: when the stored timer's duration measures as 0 ms, `rate(name, qty)`
returns exactly `qty * 1000` (the 1 ms floor is the divisor), and the checked
division succeeds — the zero-divisor panic branch is never taken. -/
theorem c5_zero_duration_rate (ts : Timers) (name : String) (t : Timer) (qty now : Int)
    (h : ts.timer.lookup name = some t) (h0 : t.duration now = 0) :
    (ts.rate name qty now).1 = qty * 1000 ∧
    ts.rateChecked name qty now = some (qty * 1000) := by
  constructor
  · simp [Timers.rate, h, h0]
  · simp [Timers.rateChecked, h, h0, checkedDiv]

/-- Witness for C5: a timer queried 0.5 ms after its start measures 0 ms. -/
theorem c5_zero_duration_rate_witness :
    ((Timers.new "a" 0).rate "a" 4 500000).1 = 4 * 1000 ∧
    (Timers.new "a" 0).rateChecked "a" 4 500000 = some (4 * 1000) :=
  c5_zero_duration_rate (Timers.new "a" 0) "a" (Timer.new 0) 4 500000
    (by rfl) (by decide)

/-- C6: `rate` is total — the effective divisor is never zero, so the
checked division (which models the Rust division panic as `none`) always
returns the same value the unchecked computation does, for every registry,
name, quantity and instant. -/
theorem c6_rate_never_panics (ts : Timers) (name : String) (qty now : Int) :
    ts.rateChecked name qty now = some ((ts.rate name qty now).1) := by
  cases hl : ts.timer.lookup name with
  | none => simp [Timers.rateChecked, Timers.rate, hl]
  | some t =>
      by_cases h0 : t.duration now = 0
      · simp [Timers.rateChecked, Timers.rate, hl, h0, checkedDiv]
      · simp [Timers.rateChecked, Timers.rate, hl, h0, checkedDiv]

/-- C7: under the monotonic-clock assumption (the stored end instant and the
query instant are not before the start instant) and a non-negative quantity,
`duration(name)` and `rate(name, qty)` on a present name return values that
are `≥ 0`, so neither can collide with the `-1` sentinel. -/
theorem c7_present_nonneg (ts : Timers) (name : String) (t : Timer) (qty now : Int)
    (h : ts.timer.lookup name = some t)
    (hse : t.starttime ≤ t.endtime) (hsn : t.starttime ≤ now) (hq : 0 ≤ qty) :
    0 ≤ (ts.duration name now).1 ∧ 0 ≤ (ts.rate name qty now).1 := by
  have hd : 0 ≤ t.duration now := by
    unfold Timer.duration msBetween
    split
    · exact Int.tdiv_nonneg (by omega) (by norm_num)
    · exact Int.tdiv_nonneg (by omega) (by norm_num)
  constructor
  · rw [duration_lookup ts name t now h]
    exact hd
  · have hq1000 : 0 ≤ qty * 1000 := mul_nonneg hq (by norm_num)
    simp only [Timers.rate, h]
    refine Int.tdiv_nonneg hq1000 ?_
    split
    · norm_num
    · exact hd

/-- Witness for C7 at a concrete registry. -/
theorem c7_present_nonneg_witness :
    0 ≤ ((Timers.new "a" 0).duration "a" 3000000).1 ∧
    0 ≤ ((Timers.new "a" 0).rate "a" 5 3000000).1 :=
  c7_present_nonneg (Timers.new "a" 0) "a" (Timer.new 0) 5 3000000
    (by rfl) (by decide) (by decide) (by decide)

/-- C8: inserting under a name that is already present replaces the stored
timer with a fresh running one: the lookup now yields the fresh timer, every
subsequent `duration(name)` measures from the new start instant (the old
duration is unrecoverable), and the stored names stay unique keys. -/
theorem c8_reinsert_overwrites (ts : Timers) (name : String) (t : Timer) (now1 : Int)
    (h : ts.timer.lookup name = some t) :
    (ts.add name now1).timer.lookup name = some (Timer.new now1) ∧
    (∀ now2 : Int, ((ts.add name now1).duration name now2).1 = msBetween now1 now2) ∧
    ((ts.timer.map Prod.fst).Nodup → ((ts.add name now1).timer.map Prod.fst).Nodup) := by
  have hadd : ts.add name now1 = { timer := updateEntry name (Timer.new now1) ts.timer } := by
    simp [Timers.add, h]
  have hlook : (updateEntry name (Timer.new now1) ts.timer).lookup name =
      some (Timer.new now1) :=
    lookup_updateEntry_self name (Timer.new now1) ts.timer t h
  refine ⟨?_, ?_, ?_⟩
  · rw [hadd]
    exact hlook
  · intro now2
    rw [hadd, duration_lookup { timer := updateEntry name (Timer.new now1) ts.timer }
      name (Timer.new now1) now2 hlook]
    simp [Timer.new, Timer.duration]
  · intro hnd
    rw [hadd]
    simpa [keys_updateEntry] using hnd

/-- Witness for C8: a timer named `a` ended at 7 ms is re-inserted at instant
20 ms; 3 ms later its duration reads 3 ms, not 7. -/
theorem c8_reinsert_overwrites_witness :
    ((((Timers.new "a" 0).endTimer "a" 7000000).2.add "a" 20000000).duration
        "a" 23000000).1 = msBetween 20000000 23000000 :=
  (c8_reinsert_overwrites ((Timers.new "a" 0).endTimer "a" 7000000).2 "a"
    (⟨0, 7000000⟩ : Timer) 20000000 (by rfl)).2.1 23000000

/-- C9: the query operations `duration` and `rate` return the registry state
they were given: no name is added or removed and no stored timer changes. -/
theorem c9_queries_leave_state (ts : Timers) (name : String) (qty now : Int) :
    (ts.duration name now).2 = ts ∧ (ts.rate name qty now).2 = ts := by
  constructor <;> cases h : ts.timer.lookup name <;>
    simp [Timers.duration, Timers.rate, h]

/-- C10: the `Default` registry holds no timers, so `duration`, `rate` and
`end` all return `-1` on it, for every name, quantity and instant. -/
theorem c10_default_is_empty (name : String) (qty now : Int) :
    Timers.default.timer = [] ∧
    (Timers.default.duration name now).1 = -1 ∧
    (Timers.default.rate name qty now).1 = -1 ∧
    (Timers.default.endTimer name now).1 = -1 :=
  ⟨rfl, rfl, rfl, rfl⟩
